import Mathlib

/-!
# Verification of the hc-hermes Python client (jrepp/hermes)

Shallow embedding of the parts of `src/python-client/src/hc_hermes/`
(`models.py`, `config.py`, `http_client.py`, `exceptions.py`,
`client_async.py`, `utils.py`) that the specification's claims are about,
followed by theorems settling each claim.

Conventions:
* Python `Optional[T]` values are `Option T`; an absent JSON field in an
  input payload is the outer `none` of an `Option`.
* Python floats that the claims only compare against `0` are modelled as `Rat`.
* A Python exception escaping a function is an explicit error value; an
  *uncaught native* exception (e.g. `TypeError`, `ValueError`) that the
  library never intends to raise is modelled as `none` / `.crash`.
-/

/-! ## models.py: DocumentStatus -/

/-- `DocumentStatus(str, Enum)` from `models.py`: the five lifecycle values. -/
inductive DocumentStatus where
  | UNSPECIFIED
  | WIP
  | IN_REVIEW
  | APPROVED
  | OBSOLETE
deriving DecidableEq, Repr

/-- The `.value` string of each `DocumentStatus` member. -/
def DocumentStatus.value : DocumentStatus → String
  | .UNSPECIFIED => "Unspecified"
  | .WIP => "WIP"
  | .IN_REVIEW => "In-Review"
  | .APPROVED => "Approved"
  | .OBSOLETE => "Obsolete"

/-- Pydantic validation of a `str` against the `DocumentStatus` enum:
a string validates exactly when it equals one member's `.value`. -/
def parseDocumentStatus (s : String) : Option DocumentStatus :=
  if s = "Unspecified" then some .UNSPECIFIED
  else if s = "WIP" then some .WIP
  else if s = "In-Review" then some .IN_REVIEW
  else if s = "Approved" then some .APPROVED
  else if s = "Obsolete" then some .OBSOLETE
  else none

/-- The list of valid status strings, in declaration order. -/
def documentStatusValues : List String :=
  ["Unspecified", "WIP", "In-Review", "Approved", "Obsolete"]

/-! ## models.py: Product and Document -/

/-- `Product` model (`models.py`), restricted to the fields the claims use;
the omitted fields (`id`, timestamps) are optional and play no role in
validation or in `full_doc_number`. -/
structure Product where
  name : String
  abbreviation : String
deriving DecidableEq, Repr

/-- `Document` model (`models.py`), restricted to the fields the claims use:
`title` is the only required field; `status` defaults to `WIP`; the other
fields here are optional with default `None`.  The remaining optional fields
of the Python model (ids, timestamps, people lists, flags) do not interact
with the claims and are elided. -/
structure Document where
  title : String
  doc_number : Option String := none
  document_number : Option Int := none
  status : DocumentStatus := .WIP
  summary : Option String := none
  product : Option Product := none
deriving DecidableEq, Repr

/-- `Document.full_doc_number` (`models.py`): Python
`if self.product and self.document_number:` — a `Product` instance is always
truthy, while an `int` document number is truthy only when nonzero, so the
formatted number is produced only for a present product and a present
*nonzero* document number; otherwise the raw `doc_number` is returned. -/
def Document.full_doc_number (d : Document) : Option String :=
  match d.product, d.document_number with
  | some p, some n =>
      if n ≠ 0 then some (p.abbreviation ++ "-" ++ toString n)
      else d.doc_number
  | _, _ => d.doc_number

/-- Input payload for `Document.model_validate`, covering the modelled
fields.  `none` means the key is absent from the payload. -/
structure DocumentInput where
  title : Option String := none
  doc_number : Option String := none
  document_number : Option Int := none
  status : Option String := none
  summary : Option String := none
  product : Option Product := none
deriving DecidableEq, Repr

/-- Pydantic validation of a `Document` payload: fails when the required
`title` is absent or when a present `status` string is not a
`DocumentStatus` value; an absent `status` takes the default `WIP`. -/
def validateDocument (i : DocumentInput) : Option Document :=
  match i.title with
  | none => none
  | some t =>
      match i.status with
      | none =>
          some { title := t, doc_number := i.doc_number,
                 document_number := i.document_number, status := .WIP,
                 summary := i.summary, product := i.product }
      | some s =>
          match parseDocumentStatus s with
          | none => none
          | some st =>
              some { title := t, doc_number := i.doc_number,
                     document_number := i.document_number, status := st,
                     summary := i.summary, product := i.product }

/-! ## models.py: SearchResult and SearchResponse -/

/-- `SearchResult` model (`models.py`), restricted to claim-relevant fields;
`object_id` and `title` are the required fields. -/
structure SearchResult where
  object_id : String
  title : String
  doc_number : Option String := none
  status : Option DocumentStatus := none
  summary : Option String := none
deriving DecidableEq, Repr

/-- `SearchResponse` model (`models.py`): `hits` is required; the four
numeric fields are plain `int`s with defaults and carry no range
constraint in the source (`nb_hits = Field(0, ...)` has no `ge`). -/
structure SearchResponse where
  hits : List SearchResult
  nb_hits : Int := 0
  page : Int := 0
  nb_pages : Int := 0
  hits_per_page : Int := 20
deriving DecidableEq, Repr

/-- Input payload for `SearchResponse.model_validate`; `none` means the key
is absent (the hits themselves are taken as already validated
`SearchResult`s, whose validation is independent of the counts). -/
structure SearchResponseInput where
  hits : List SearchResult
  nb_hits : Option Int := none
  page : Option Int := none
  nb_pages : Option Int := none
  hits_per_page : Option Int := none
deriving DecidableEq, Repr

/-- Pydantic validation of a `SearchResponse` payload: every integer value
is accepted as-is and absent fields take their declared defaults; the
source imposes no sign constraint on any of the counts. -/
def validateSearchResponse (i : SearchResponseInput) : Option SearchResponse :=
  some { hits := i.hits,
         nb_hits := i.nb_hits.getD 0,
         page := i.page.getD 0,
         nb_pages := i.nb_pages.getD 0,
         hits_per_page := i.hits_per_page.getD 20 }

/-! ## config.py: HermesConfig -/

/-- Strip every leading `'/'` (Python `str.lstrip("/")`). -/
def lstripSlash : List Char → List Char
  | [] => []
  | c :: cs => if c = '/' then lstripSlash cs else c :: cs

/-- Strip every trailing `'/'` (Python `str.rstrip("/")`). -/
def rstripSlash (l : List Char) : List Char :=
  (lstripSlash l.reverse).reverse

/-- `HermesConfig.validate_base_url` (`config.py`): the field validator
rewrites the base URL by removing any trailing slashes. -/
def validate_base_url (v : String) : String :=
  ⟨rstripSlash v.data⟩

/-- Python `str.upper()` on one ASCII character. -/
def charUpper (c : Char) : Char :=
  if 'a' ≤ c ∧ c ≤ 'z' then Char.ofNat (c.toNat - 32) else c

/-- Python `str.upper()` for the ASCII strings the configuration and
parser handle. -/
def strUpper (s : String) : String :=
  ⟨s.data.map charUpper⟩

/-- The valid log levels of `HermesConfig.validate_log_level`. -/
def validLogLevels : List String :=
  ["DEBUG", "INFO", "WARNING", "ERROR", "CRITICAL"]

/-- `HermesConfig.validate_log_level` (`config.py`): uppercases the input
and accepts it exactly when the uppercased form is a valid level. -/
def validate_log_level (v : String) : Option String :=
  if strUpper v ∈ validLogLevels then some (strUpper v) else none

/-- `HermesConfig` (`config.py`), restricted to the fields the claims use
(`auth_token`, `verify_ssl`, `credentials_path` are unconstrained). -/
structure HermesConfig where
  base_url : String := "http://localhost:8000"
  timeout : Rat := 30
  max_retries : Nat := 3
  api_version : String := "v2"
  log_level : String := "INFO"
deriving DecidableEq, Repr

/-- Construction of a `HermesConfig` with pydantic validation
(`config.py`): `timeout` carries `ge=0`, `max_retries` carries
`ge=0, le=10`, the log level passes through `validate_log_level` and the
base URL through `validate_base_url`.  `none` is a pydantic
`ValidationError`. -/
def mkHermesConfig (base_url : String) (timeout : Rat) (max_retries : Int)
    (api_version : String) (log_level : String) : Option HermesConfig :=
  if timeout < 0 then none
  else if max_retries < 0 ∨ 10 < max_retries then none
  else
    match validate_log_level log_level with
    | none => none
    | some lvl =>
        some { base_url := validate_base_url base_url, timeout := timeout,
               max_retries := max_retries.toNat, api_version := api_version,
               log_level := lvl }

/-- `HermesConfig.get_api_url` (`config.py`): strip the path's leading
slashes, then return `f"{base_url}/api/{api_version}/{path}"`. -/
def get_api_url (cfg : HermesConfig) (path : String) : String :=
  cfg.base_url ++ "/api/" ++ cfg.api_version ++ "/" ++ ⟨lstripSlash path.data⟩

/-! ## http_client.py and exceptions.py: transport, retries, error mapping -/

/-- The `error`/`message` fields of a JSON error body, as read by
`_handle_error_response` via `dict.get`; `none` means the key is absent. -/
structure ErrorBody where
  errorField : Option String := none
  messageField : Option String := none
deriving DecidableEq, Repr

/-- An `httpx.Response` as observed by the client: status code, raw body
text, the parsed JSON body (`none` when `response.json()` raises), and the
`Retry-After` header. -/
structure Response where
  status_code : Nat
  text : String := ""
  jsonBody : Option ErrorBody := none
  retry_after_header : Option String := none
deriving DecidableEq, Repr

/-- The closed error taxonomy of `exceptions.py`, restricted to the fields
the claims use.  For `authError` the status code and body live in the
`context` dict of `HermesError.__init__` (since `HermesAuthError` derives
from `HermesError`, not `HermesAPIError`); for the others they are the
attributes of `HermesAPIError`.  The `status_code`/`response_body`
parameters are optional exactly as in the Python signatures. -/
inductive HermesError where
  | authError (message : String) (status_code : Option Nat)
      (response_body : Option String)
  | notFoundError (message : String) (status_code : Option Nat)
      (response_body : Option String)
  | rateLimitError (message : String) (retry_after : Option Int)
      (status_code : Option Nat) (response_body : Option String)
  | apiError (message : String) (status_code : Option Nat)
      (response_body : Option String)
  | connectionError (message : String)
  | timeoutError (message : String)
deriving DecidableEq, Repr

/-- The `status_code` carried by an error (attribute or context entry). -/
def HermesError.statusCode : HermesError → Option Nat
  | .authError _ st _ => st
  | .notFoundError _ st _ => st
  | .rateLimitError _ _ st _ => st
  | .apiError _ st _ => st
  | .connectionError _ => none
  | .timeoutError _ => none

/-- The `response_body` carried by an error (attribute or context entry). -/
def HermesError.responseBody : HermesError → Option String
  | .authError _ _ b => b
  | .notFoundError _ _ b => b
  | .rateLimitError _ _ _ b => b
  | .apiError _ _ b => b
  | .connectionError _ => none
  | .timeoutError _ => none

/-- `HermesNotFoundError(message, status_code=st, response_body=b)` as
called from `_handle_error_response`: the subclass `__init__` forwards
`status_code=404` explicitly *and* passes `**kwargs` through, so a
`status_code` keyword in the call collides and Python raises
`TypeError: got multiple values for keyword argument` — modelled as
`none`.  Only a call without a `status_code` keyword succeeds. -/
def mkHermesNotFoundError (message : String) (kw_status_code : Option Nat)
    (kw_response_body : Option String) : Option HermesError :=
  match kw_status_code with
  | some _ => none
  | none => some (.notFoundError message (some 404) kw_response_body)

/-- `HermesRateLimitError(message, retry_after=ra, status_code=st,
response_body=b)`: same duplicate-keyword collision on `status_code`
(the subclass forwards `status_code=429` plus `**kwargs`), so the call
from `_handle_error_response` raises `TypeError` — modelled as `none`. -/
def mkHermesRateLimitError (message : String) (retry_after : Option Int)
    (kw_status_code : Option Nat) (kw_response_body : Option String) :
    Option HermesError :=
  match kw_status_code with
  | some _ => none
  | none => some (.rateLimitError message retry_after (some 429) kw_response_body)

/-- The error-message extraction of `_handle_error_response`
(`http_client.py`): on a parsed JSON body,
`error_body.get("error", error_body.get("message", response.text))`;
when `response.json()` raises, `response.text or f"HTTP {status} error"`
(an empty text is falsy and falls back to the generic message). -/
def errorMessageOf (r : Response) : String :=
  match r.jsonBody with
  | some b => b.errorField.getD (b.messageField.getD r.text)
  | none =>
      if r.text = "" then "HTTP " ++ toString r.status_code ++ " error"
      else r.text

/-- The value of a decimal digit character, if it is one. -/
def digitVal? (c : Char) : Option Nat :=
  if '0' ≤ c ∧ c ≤ '9' then some (c.toNat - 48) else none

/-- Read a nonempty all-digit character list as a natural number. -/
def digitsToNat? : List Char → Option Nat
  | [] => none
  | l =>
      l.foldl
        (fun acc c =>
          match acc, digitVal? c with
          | some a, some d => some (a * 10 + d)
          | _, _ => none)
        (some 0)

/-- Python `int(s)` for plain decimal literals with an optional leading
minus sign; anything else raises `ValueError`, modelled as `none`. -/
def pyInt? (s : String) : Option Int :=
  match s.data with
  | '-' :: rest => (digitsToNat? rest).map (fun n => -(n : Int))
  | l => (digitsToNat? l).map (fun n => (n : Int))

/-- `int(retry_after) if retry_after else None` (`http_client.py`): an
absent or empty (falsy) header yields `None`; a nonempty header is parsed
with `int`, and a non-integer header raises `ValueError` — modelled as the
outer `none`. -/
def parseRetryAfter (h : Option String) : Option (Option Int) :=
  match h with
  | none => some none
  | some s =>
      if s = "" then some none
      else
        match pyInt? s with
        | some n => some (some n)
        | none => none

/-- `AsyncHTTPClient._handle_error_response` (`http_client.py`): maps a
status ≥ 400 response to the raised `HermesError`.  The outer `none` is an
uncaught native exception: the `TypeError` from the duplicated
`status_code` keyword in the 404/429 constructors, or the `ValueError`
from a non-integer `Retry-After`.  Note the `response_body` passed along
is the extracted `error_message`, not the raw body text. -/
def handle_error_response (r : Response) : Option HermesError :=
  let msg := errorMessageOf r
  if r.status_code = 401 then
    some (.authError ("Authentication failed: " ++ msg)
      (some r.status_code) (some msg))
  else if r.status_code = 403 then
    some (.authError ("Permission denied: " ++ msg)
      (some r.status_code) (some msg))
  else if r.status_code = 404 then
    mkHermesNotFoundError msg (some r.status_code) (some msg)
  else if r.status_code = 429 then
    match parseRetryAfter r.retry_after_header with
    | none => none
    | some retry_seconds =>
        mkHermesRateLimitError msg retry_seconds (some r.status_code) (some msg)
  else
    some (.apiError msg (some r.status_code) (some msg))

/-- One transport attempt's outcome, indexed by attempt number: the
underlying `httpx` call either returns a response, raises
`httpx.TimeoutException`, or raises `httpx.ConnectError`. -/
inductive Outcome where
  | success (r : Response)
  | timeout
  | connect_error
deriving DecidableEq, Repr

/-- What a call of `AsyncHTTPClient.request` produces. -/
inductive RequestOutcome where
  | ok (r : Response)
  | err (e : HermesError)
  | crash
deriving DecidableEq, Repr

/-- Result of running `AsyncHTTPClient.request`: the outcome, the number of
transport attempts made, and the list of backoff delays slept (in seconds,
in order). -/
structure RequestResult where
  outcome : RequestOutcome
  attempts : Nat
  delays : List Nat
deriving DecidableEq, Repr

/-- `AsyncHTTPClient.request` (`http_client.py`) from a given
`retry_count`, against a transport that maps each attempt number to its
outcome.  A response with status ≥ 400 goes through
`_handle_error_response` and is never retried (the raised errors are not
`httpx` exceptions); a timeout or connection error sleeps
`2 ** retry_count` seconds and recurses with `retry_count + 1` while
`retry_count < max_retries`, and otherwise raises the typed
timeout/connection error.  The Python messages interpolate the underlying
exception text, which the transport model does not carry, so the constant
prefixes stand for them. -/
def request_from (transport : Nat → Outcome) (max_retries : Nat) :
    Nat → RequestResult :=
  fun retry_count =>
    match transport retry_count with
    | .success r =>
        if 400 ≤ r.status_code then
          match handle_error_response r with
          | some e => ⟨.err e, 1, []⟩
          | none => ⟨.crash, 1, []⟩
        else ⟨.ok r, 1, []⟩
    | .timeout =>
        if h : retry_count < max_retries then
          let rest := request_from transport max_retries (retry_count + 1)
          ⟨rest.outcome, rest.attempts + 1, 2 ^ retry_count :: rest.delays⟩
        else ⟨.err (.timeoutError "Request timed out"), 1, []⟩
    | .connect_error =>
        if h : retry_count < max_retries then
          let rest := request_from transport max_retries (retry_count + 1)
          ⟨rest.outcome, rest.attempts + 1, 2 ^ retry_count :: rest.delays⟩
        else ⟨.err (.connectionError "Connection failed"), 1, []⟩
termination_by retry_count => max_retries - retry_count
decreasing_by all_goals omega

/-- `AsyncHTTPClient.request` as entered by callers: `retry_count = 0`. -/
def request (transport : Nat → Outcome) (max_retries : Nat) : RequestResult :=
  request_from transport max_retries 0

/-! ## models.py / client_async.py: DocumentPatchRequest and its dump -/

/-- The `value` of a `DocumentCustomField`: `str | list[str] | None`. -/
inductive CustomFieldValue where
  | str (s : String)
  | strs (l : List String)
deriving DecidableEq, Repr

/-- `DocumentCustomField` model (`models.py`). -/
structure DocumentCustomField where
  name : String
  display_name : Option String := none
  value : Option CustomFieldValue := none
deriving DecidableEq, Repr

/-- `DocumentPatchRequest` model (`models.py`): every field is optional
with default `None`, in declaration order. -/
structure DocumentPatchRequest where
  approvers : Option (List String) := none
  approver_groups : Option (List String) := none
  contributors : Option (List String) := none
  custom_fields : Option (List DocumentCustomField) := none
  owners : Option (List String) := none
  status : Option DocumentStatus := none
  summary : Option String := none
  title : Option String := none
deriving DecidableEq, Repr

/-- The caller's `**fields` keyword arguments to `AsyncDocumentsAPI.update`
(`client_async.py`): the outer `Option` is whether the keyword was
supplied at all, the inner value is the (possibly `None`) value supplied. -/
structure PatchKwargs where
  approvers : Option (Option (List String)) := none
  approver_groups : Option (Option (List String)) := none
  contributors : Option (Option (List String)) := none
  custom_fields : Option (Option (List DocumentCustomField)) := none
  owners : Option (Option (List String)) := none
  status : Option (Option DocumentStatus) := none
  summary : Option (Option String) := none
  title : Option (Option String) := none
deriving DecidableEq, Repr

/-- `DocumentPatchRequest(**fields)`: an unsupplied keyword takes the
declared default `None`; a supplied keyword takes its supplied value. -/
def patchOfKwargs (kw : PatchKwargs) : DocumentPatchRequest :=
  { approvers := kw.approvers.getD none,
    approver_groups := kw.approver_groups.getD none,
    contributors := kw.contributors.getD none,
    custom_fields := kw.custom_fields.getD none,
    owners := kw.owners.getD none,
    status := kw.status.getD none,
    summary := kw.summary.getD none,
    title := kw.title.getD none }

/-- A serialized JSON value in the patch body. -/
inductive PatchValue where
  | strs (l : List String)
  | fields (l : List DocumentCustomField)
  | status (s : DocumentStatus)
  | str (s : String)
deriving DecidableEq, Repr

/-- One field's contribution to `model_dump(exclude_none=True)`: a
`None`-valued field is dropped, anything else is emitted under its field
name. -/
def dumpField (name : String) (v : Option α) (inj : α → PatchValue) :
    List (String × PatchValue) :=
  match v with
  | some x => [(name, inj x)]
  | none => []

/-- `patch_data.model_dump(exclude_none=True)` (`client_async.py`): the
serialized body keeps, in declaration order, exactly the fields whose
current value is not `None` — whether a `None` value came from the default
of an unsupplied keyword or was supplied explicitly. -/
def modelDumpExcludeNone (p : DocumentPatchRequest) :
    List (String × PatchValue) :=
  dumpField "approvers" p.approvers PatchValue.strs ++
  dumpField "approver_groups" p.approver_groups PatchValue.strs ++
  dumpField "contributors" p.contributors PatchValue.strs ++
  dumpField "custom_fields" p.custom_fields PatchValue.fields ++
  dumpField "owners" p.owners PatchValue.strs ++
  dumpField "status" p.status PatchValue.status ++
  dumpField "summary" p.summary PatchValue.str ++
  dumpField "title" p.title PatchValue.str

/-- The request body `AsyncDocumentsAPI.update` sends for given caller
keyword arguments. -/
def updateBody (kw : PatchKwargs) : List (String × PatchValue) :=
  modelDumpExcludeNone (patchOfKwargs kw)

/-! ## utils.py: frontmatter templates and parsing

`utils.py` delegates YAML serialization to PyYAML (`yaml.dump`, block
style, unsorted keys) and frontmatter splitting to `python-frontmatter`.
Those third-party libraries are embedded here for the value shapes
`utils.py` actually produces: string scalars and string lists. -/

/-- A YAML frontmatter value as used by `utils.py`: a string scalar or a
list of strings. -/
inductive YamlVal where
  | str (s : String)
  | list (l : List String)
deriving DecidableEq, Repr

/-- Split a character list on a separator character, keeping empty
segments (the semantics of Python `str.split` on a 1-char separator). -/
def splitOnChar (sep : Char) : List Char → List (List Char)
  | [] => [[]]
  | c :: cs =>
      let r := splitOnChar sep cs
      if c = sep then [] :: r
      else
        match r with
        | hd :: tl => (c :: hd) :: tl
        | [] => [[c]]

/-- The lines of a string (split on newline). -/
def linesOf (s : String) : List String :=
  (splitOnChar '\n' s.data).map (fun l => ⟨l⟩)

/-- Split a line at its first `": "` into key and value. -/
def splitKeyVal : List Char → Option (List Char × List Char)
  | [] => none
  | ':' :: ' ' :: rest => some ([], rest)
  | c :: rest => (splitKeyVal rest).map (fun p => (c :: p.1, p.2))

/-- ASCII whitespace, for Python `str.strip()`. -/
def isWsChar (c : Char) : Bool :=
  c = ' ' || c = '\n' || c = '\t' || c = '\r'

/-- Python `str.strip()` on the whitespace the templates contain. -/
def strTrim (s : String) : String :=
  ⟨((s.data.dropWhile isWsChar).reverse.dropWhile isWsChar).reverse⟩

/-- One step of block-YAML line parsing, folded from the last line upward:
`- item` lines accumulate as the pending list, a `key: value` line emits a
string entry, and a `key:` line emits the pending list under that key. -/
def yamlStep (line : List Char)
    (acc : List (List Char) × List (String × YamlVal)) :
    List (List Char) × List (String × YamlVal) :=
  match line with
  | '-' :: ' ' :: item => (item :: acc.1, acc.2)
  | _ =>
      match splitKeyVal line with
      | some (k, v) => (acc.1, (⟨k⟩, YamlVal.str ⟨v⟩) :: acc.2)
      | none =>
          match line.getLast? with
          | some ':' =>
              ([], (⟨line.dropLast⟩,
                    YamlVal.list (acc.1.map (fun i => ⟨i⟩))) :: acc.2)
          | _ => (acc.1, acc.2)

/-- Parse the block-YAML lines of a frontmatter section into the metadata
mapping, in order. -/
def parseYamlLines (lines : List (List Char)) : List (String × YamlVal) :=
  (lines.foldr yamlStep ([], [])).2

/-- `frontmatter.loads`: when the text opens with a `---` line, the lines
up to the next `---` line are the YAML metadata and the remainder
(stripped) is the content; otherwise there is no metadata. -/
def frontmatter_loads (text : String) : List (String × YamlVal) × String :=
  match linesOf text with
  | [] => ([], text)
  | first :: rest =>
      if first = "---" then
        match rest.dropWhile (fun l => l ≠ "---") with
        | _ :: contentLines =>
            (parseYamlLines ((rest.takeWhile (fun l => l ≠ "---")).map
                String.data),
             strTrim (String.intercalate "\n" contentLines))
        | [] => ([], text)
      else ([], text)

/-- `yaml.dump(..., default_flow_style=False, sort_keys=False)` for the
shapes `utils.py` emits: `key: value` for plain string scalars and
`key:` followed by `- item` lines for string lists, in insertion order. -/
def yamlEntryDump : String × YamlVal → String
  | (k, .str v) => k ++ ": " ++ v ++ "\n"
  | (k, .list items) =>
      k ++ ":\n" ++ String.join (items.map (fun i => "- " ++ i ++ "\n"))

/-- `yaml.dump` of a whole metadata mapping. -/
def yaml_dump (pairs : List (String × YamlVal)) : String :=
  String.join (pairs.map yamlEntryDump)

/-- Python truthiness of an `Optional[str]`: `None` and `""` are falsy. -/
def truthyStr : Option String → Option String
  | some s => if s = "" then none else some s
  | none => none

/-- `create_document_template` (`utils.py`): builds the frontmatter dict
(`title`, `docType`, `status: WIP`, plus `product`/`summary`/`contributors`
when those arguments are truthy), dumps it to YAML, and splices it into
the fixed Markdown template. -/
def create_document_template (doc_type title : String)
    (product author summary : Option String) : String :=
  let fm : List (String × YamlVal) :=
    [("title", YamlVal.str title), ("docType", YamlVal.str doc_type),
     ("status", YamlVal.str "WIP")]
    ++ (match truthyStr product with
        | some p => [("product", YamlVal.str p)]
        | none => [])
    ++ (match truthyStr summary with
        | some s => [("summary", YamlVal.str s)]
        | none => [])
    ++ (match truthyStr author with
        | some a => [("contributors", YamlVal.list [a])]
        | none => [])
  let fmYaml := strTrim (yaml_dump fm)
  "---\n" ++ fmYaml ++ "\n---\n\n# " ++ title ++ "\n\n## Summary\n\n"
  ++ (match truthyStr summary with
      | some s => s
      | none => "Brief description of this document.")
  ++ "\n\n## Background\n\nProvide context and motivation for this document.\n\n## Proposal\n\nDescribe the proposed solution or feature.\n\n## Alternatives Considered\n\nWhat other approaches were considered and why were they not chosen?\n\n## Open Questions\n\n- Question 1?\n- Question 2?\n\n## References\n\n- [Related Document](url)\n"

/-- `ParsedDocument` dataclass (`utils.py`). -/
structure ParsedDocument where
  title : String
  doc_type : Option String := none
  product : Option String := none
  summary : Option String := none
  status : Option DocumentStatus := none
  tags : Option (List String) := none
  approvers : Option (List String) := none
  contributors : Option (List String) := none
  content : String := ""
deriving DecidableEq, Repr

/-- `metadata.get(k)`: first binding of a key in the metadata mapping. -/
def lookupMeta (m : List (String × YamlVal)) (k : String) : Option YamlVal :=
  (m.find? (fun p => p.1 = k)).map Prod.snd

/-- A metadata value read as a string; the claims only exercise string
values for the string-typed fields. -/
def metaStr : Option YamlVal → Option String
  | some (.str s) => some s
  | _ => none

/-- Python truthiness of a metadata value: `None`, `""` and `[]` are
falsy. -/
def truthyVal : Option YamlVal → Option YamlVal
  | none => none
  | some (.str s) => if s = "" then none else some (.str s)
  | some (.list l) => if l.isEmpty then none else some (.list l)

/-- Python `a or b` on metadata values. -/
def pyOr (a b : Option YamlVal) : Option YamlVal :=
  match truthyVal a with
  | some v => some v
  | none => b

/-- `x if isinstance(x, list) else [x] if x else None` applied to
`metadata.get(k, [])` (`utils.py`): an absent key yields the (empty) list
default, a list value passes through, a truthy scalar is wrapped, and a
falsy scalar yields `None`. -/
def listifyMeta : Option YamlVal → Option (List String)
  | none => some []
  | some (.list l) => some l
  | some (.str s) => if s = "" then none else some [s]

/-- `DocumentParser.parse_string` (`utils.py`) with the parser's default
`required_fields = ["title"]`: split frontmatter, reject a missing
required key, then extract the typed fields, trying the raw and then the
uppercased status string against the `DocumentStatus` enum. -/
def parse_string (required_fields : List String) (text : String) :
    Except String ParsedDocument :=
  let md := frontmatter_loads text
  let metadata := md.1
  match required_fields.find? (fun f => (lookupMeta metadata f).isNone) with
  | some f => .error ("Missing required field: " ++ f)
  | none =>
      let status :=
        match truthyVal (lookupMeta metadata "status") with
        | some (.str s) =>
            (match parseDocumentStatus s with
             | some st => some st
             | none => parseDocumentStatus (strUpper s))
        | _ => none
      .ok { title := (metaStr (lookupMeta metadata "title")).getD "",
            doc_type := metaStr (pyOr (lookupMeta metadata "docType")
              (lookupMeta metadata "doc_type")),
            product := metaStr (lookupMeta metadata "product"),
            summary := metaStr (lookupMeta metadata "summary"),
            status := status,
            tags := listifyMeta (lookupMeta metadata "tags"),
            approvers := listifyMeta (lookupMeta metadata "approvers"),
            contributors := listifyMeta (lookupMeta metadata "contributors"),
            content := md.2 }

/-! ## Helper lemmas -/

/-- A status string validates exactly when it is one of the five enum
values. -/
theorem parseDocumentStatus_isSome_iff (s : String) :
    (parseDocumentStatus s).isSome ↔ s ∈ documentStatusValues := by
  unfold parseDocumentStatus documentStatusValues
  split_ifs with h1 h2 h3 h4 h5 <;> simp_all

/-- Stripping leading slashes never leaves a leading slash. -/
theorem lstripSlash_head_ne (l : List Char) :
    (lstripSlash l).head? ≠ some '/' := by
  induction l with
  | nil => simp [lstripSlash]
  | cons c cs ih =>
      by_cases hc : c = '/'
      · simpa [lstripSlash, hc] using ih
      · simp [lstripSlash, hc]

/-- Stripping trailing slashes never leaves a trailing slash. -/
theorem rstripSlash_getLast_ne (l : List Char) :
    (rstripSlash l).getLast? ≠ some '/' := by
  unfold rstripSlash
  rw [List.getLast?_reverse]
  exact lstripSlash_head_ne l.reverse

/-! ## C3: document status enumeration -/

/-- C3 counterexample: the code's status enumeration is not
draft/in-review/approved/obsolete — the string "WIP" validates although it
is outside the claimed enumeration, and the claimed value "draft" fails
validation. -/
theorem C3_counterexample :
    parseDocumentStatus "WIP" = some DocumentStatus.WIP ∧
    "WIP" ∉ ["draft", "in-review", "approved", "obsolete"] ∧
    parseDocumentStatus "draft" = none := by decide

/-- C3 (amended): the lifecycle status enumeration is
Unspecified/WIP/In-Review/Approved/Obsolete — a status string validates
exactly when it is one of these five values, and validating a document
whose status is any value outside the enumeration fails rather than
silently passing through. -/
theorem C3_status_enum_closed :
    (∀ s : String, (parseDocumentStatus s).isSome ↔ s ∈ documentStatusValues) ∧
    (∀ (i : DocumentInput) (s : String), i.status = some s →
      s ∉ documentStatusValues → validateDocument i = none) := by
  refine ⟨parseDocumentStatus_isSome_iff, ?_⟩
  intro i s hs hmem
  have hps : parseDocumentStatus s = none := by
    cases hp : parseDocumentStatus s with
    | none => rfl
    | some st =>
        exact absurd ((parseDocumentStatus_isSome_iff s).mp (by simp [hp])) hmem
  unfold validateDocument
  rw [hs]
  cases i.title <;> simp [hps]

/-- C3 witness: a concrete document payload with status "draft" fails
validation. -/
theorem C3_status_enum_closed_witness :
    validateDocument { title := some "T", status := some "draft" } = none :=
  C3_status_enum_closed.2 { title := some "T", status := some "draft" } "draft"
    rfl (by decide)

/-! ## C4: configuration validation -/

/-- C4 counterexample: the log-level check is case-insensitive — the input
"debug" is outside {DEBUG, INFO, WARNING, ERROR, CRITICAL}, yet
configuration construction succeeds, refuting the claimed
if-and-only-if. -/
theorem C4_counterexample :
    (mkHermesConfig "http://localhost:8000" 30 3 "v2" "debug").isSome = true ∧
    "debug" ∉ validLogLevels := by
  constructor
  · have h30 : ¬ (30 : ℚ) < 0 := by norm_num
    have hr : ¬ ((3 : ℤ) < 0 ∨ 10 < (3 : ℤ)) := by norm_num
    have hlvl : validate_log_level "debug" = some "DEBUG" := by decide
    simp [mkHermesConfig, h30, hr, hlvl]
  · decide

/-- C4 (amended): configuration construction fails with a validation error
if and only if the timeout is < 0, or the retry count is outside [0,10],
or the *uppercased* log level is not in {DEBUG, INFO, WARNING, ERROR,
CRITICAL} (the check is case-insensitive). -/
theorem C4_config_validation (b : String) (t : Rat) (r : Int) (v lvl : String) :
    mkHermesConfig b t r v lvl = none ↔
      t < 0 ∨ r < 0 ∨ 10 < r ∨ strUpper lvl ∉ validLogLevels := by
  have hlog : validate_log_level lvl = none ↔ strUpper lvl ∉ validLogLevels := by
    unfold validate_log_level
    split_ifs with h <;> simp [h]
  unfold mkHermesConfig
  split_ifs with h1 h2
  · exact iff_of_true rfl (Or.inl h1)
  · refine iff_of_true rfl ?_
    rcases h2 with h2 | h2
    · exact Or.inr (Or.inl h2)
    · exact Or.inr (Or.inr (Or.inl h2))
  · cases hv : validate_log_level lvl with
    | none =>
        exact iff_of_true rfl (Or.inr (Or.inr (Or.inr (hlog.mp hv))))
    | some l =>
        have hmem : strUpper lvl ∈ validLogLevels := by
          by_contra hn
          simp [hlog.mpr hn] at hv
        refine iff_of_false (by simp) ?_
        intro hcon
        rcases hcon with h | h | h | h
        · exact h1 h
        · exact h2 (Or.inl h)
        · exact h2 (Or.inr h)
        · exact h hmem

/-! ## C5: API URL construction -/

/-- C5: for a configuration whose base URL went through the field
validator, `get_api_url` is invariant under a leading slash on the path,
and the produced URL is exactly base URL + "/api/" + version + "/" + the
path with its leading slashes stripped — with no doubled slash at either
join: the stripped path never starts with '/' and the validated base URL
never ends with '/'. -/
theorem C5_get_api_url (cfg : HermesConfig) (b path : String)
    (hb : cfg.base_url = validate_base_url b) :
    get_api_url cfg ("/" ++ path) = get_api_url cfg path ∧
    get_api_url cfg path =
      cfg.base_url ++ "/api/" ++ cfg.api_version ++ "/" ++ ⟨lstripSlash path.data⟩ ∧
    (lstripSlash path.data).head? ≠ some '/' ∧
    cfg.base_url.data.getLast? ≠ some '/' := by
  refine ⟨?_, rfl, lstripSlash_head_ne _, ?_⟩
  · unfold get_api_url
    have h : ("/" ++ path).data = '/' :: path.data := by
      rw [String.data_append]
      rfl
    rw [h]
    simp [lstripSlash]
  · rw [hb]
    exact rstripSlash_getLast_ne b.data

/-- C5 witness: leading-slash invariance and the no-trailing-slash
property at a concrete validated configuration. -/
theorem C5_get_api_url_witness :
    get_api_url { base_url := validate_base_url "http://h/" } "/docs" =
      get_api_url { base_url := validate_base_url "http://h/" } "docs" ∧
    ({ base_url := validate_base_url "http://h/" } :
      HermesConfig).base_url.data.getLast? ≠ some '/' :=
  ⟨(C5_get_api_url { base_url := validate_base_url "http://h/" }
      "http://h/" "docs" rfl).1,
   (C5_get_api_url { base_url := validate_base_url "http://h/" }
      "http://h/" "docs" rfl).2.2.2⟩

/-! ## C7: full document number derivation -/

/-- C7 counterexample: with a product present and document number 0 — both
fields present — Python truthiness makes `0` falsy, so `full_doc_number`
falls back to the raw `doc_number` (here `None`) instead of producing the
abbreviation-hyphen-number form. -/
theorem C7_counterexample :
    Document.full_doc_number
      { title := "T", document_number := some 0,
        product := some { name := "Terraform", abbreviation := "TF" } } = none ∧
    ({ title := "T", document_number := some 0,
       product := some { name := "Terraform", abbreviation := "TF" } } :
      Document).product.isSome = true ∧
    ({ title := "T", document_number := some 0,
       product := some { name := "Terraform", abbreviation := "TF" } } :
      Document).document_number.isSome = true := by
  refine ⟨rfl, rfl, rfl⟩

/-- C7 (amended): when the product is present and the document number is
present *and nonzero*, `full_doc_number` is abbreviation-hyphen-number (in
particular "TF"-123 gives "TF-123"); when neither a product nor a raw doc
number is present it yields `None`. -/
theorem C7_full_doc_number (d : Document) (p : Product) (n : Int) :
    (d.product = some p → d.document_number = some n → n ≠ 0 →
      d.full_doc_number = some (p.abbreviation ++ "-" ++ toString n)) ∧
    (d.product = none → d.doc_number = none → d.full_doc_number = none) ∧
    Document.full_doc_number
      { title := "T", document_number := some 123,
        product := some { name := "Terraform", abbreviation := "TF" } } =
      some "TF-123" := by
  refine ⟨?_, ?_, by decide⟩
  · intro h1 h2 h3
    unfold Document.full_doc_number
    rw [h1, h2]
    simp [h3]
  · intro h1 h2
    unfold Document.full_doc_number
    rw [h1]
    cases d.document_number <;> simp [h2]

/-- C7 witness: the amended derivation at a concrete document. -/
theorem C7_full_doc_number_witness :
    Document.full_doc_number
      { title := "T", document_number := some 7,
        product := some { name := "X", abbreviation := "AB" } } =
      some "AB-7" :=
  (C7_full_doc_number
    { title := "T", document_number := some 7,
      product := some { name := "X", abbreviation := "AB" } }
    { name := "X", abbreviation := "AB" } 7).1 rfl rfl (by decide)

/-! ## C9: search response hit count -/

/-- C9 counterexample: a search response payload with `nb_hits = -1`
passes validation and keeps the negative total — the source puts no lower
bound on `nb_hits`. -/
theorem C9_counterexample :
    (validateSearchResponse { hits := [], nb_hits := some (-1) }).map
      SearchResponse.nb_hits = some (-1) ∧ (-1 : Int) < 0 :=
  ⟨rfl, by decide⟩

/-- C9 (amended): validation accepts any integer total — `nb_hits` equals
the supplied integer (negative ones included) and defaults to 0 only when
the field is absent. -/
theorem C9_nb_hits (i : SearchResponseInput) :
    (i.nb_hits = none →
      (validateSearchResponse i).map SearchResponse.nb_hits = some 0) ∧
    (∀ n : Int, i.nb_hits = some n →
      (validateSearchResponse i).map SearchResponse.nb_hits = some n) := by
  constructor
  · intro h
    simp [validateSearchResponse, h]
  · intro n h
    simp [validateSearchResponse, h]

/-- C9 witness: the default total at a concrete payload without
`nb_hits`. -/
theorem C9_nb_hits_witness :
    (validateSearchResponse { hits := [] }).map SearchResponse.nb_hits =
      some 0 :=
  (C9_nb_hits { hits := [] }).1 rfl

/-! ## C10: default document status -/

/-- C10: a document payload that has the required `title` but omits
`status` entirely validates successfully, with status defaulted to WIP —
absence of a status is never a validation error. -/
theorem C10_default_status (i : DocumentInput) (t : String)
    (ht : i.title = some t) (hs : i.status = none) :
    validateDocument i =
      some { title := t, doc_number := i.doc_number,
             document_number := i.document_number, status := .WIP,
             summary := i.summary, product := i.product } := by
  unfold validateDocument
  rw [ht, hs]

/-- C10 witness: a concrete payload without a status validates to a WIP
document. -/
theorem C10_default_status_witness :
    validateDocument { title := some "Doc" } =
      some { title := "Doc", status := .WIP } :=
  C10_default_status { title := some "Doc" } "Doc" rfl rfl

/-! ## C6: partial-update serialization -/

/-- C6 counterexample: a caller who explicitly supplies `summary=None` to
the patch call has the field dropped from the serialized body —
`model_dump(exclude_none=True)` removes `None`-valued fields whether or
not they were supplied, so a supplied field is not always present. -/
theorem C6_counterexample :
    ({ summary := some none } : PatchKwargs).summary.isSome = true ∧
    "summary" ∉ (updateBody { summary := some none }).map Prod.fst := by
  refine ⟨rfl, by decide⟩

/-- C6 (amended): the serialized patch body contains, in declaration
order, exactly the fields whose value is non-`None`: every field the
caller did not supply keeps its `None` default and is omitted, every field
supplied with a non-`None` value is present, and a field explicitly
supplied as `None` is also omitted. -/
theorem C6_patch_serialization :
    (∀ kw : PatchKwargs, patchOfKwargs kw =
      { approvers := kw.approvers.getD none,
        approver_groups := kw.approver_groups.getD none,
        contributors := kw.contributors.getD none,
        custom_fields := kw.custom_fields.getD none,
        owners := kw.owners.getD none,
        status := kw.status.getD none,
        summary := kw.summary.getD none,
        title := kw.title.getD none }) ∧
    (∀ p : DocumentPatchRequest, (modelDumpExcludeNone p).map Prod.fst =
      (if p.approvers.isSome then ["approvers"] else []) ++
      (if p.approver_groups.isSome then ["approver_groups"] else []) ++
      (if p.contributors.isSome then ["contributors"] else []) ++
      (if p.custom_fields.isSome then ["custom_fields"] else []) ++
      (if p.owners.isSome then ["owners"] else []) ++
      (if p.status.isSome then ["status"] else []) ++
      (if p.summary.isSome then ["summary"] else []) ++
      (if p.title.isSome then ["title"] else [])) := by
  have hseg : ∀ (α : Type) (name : String) (v : Option α)
      (inj : α → PatchValue),
      (dumpField name v inj).map Prod.fst = if v.isSome then [name] else [] := by
    intro α name v inj
    cases v <;> rfl
  constructor
  · intro kw
    rfl
  · intro p
    simp only [modelDumpExcludeNone, List.map_append, hseg]

/-! ## C1: retry with exponential backoff -/

/-- Against a transport that fails on every attempt, the request makes
`max_retries + 1 - c` further attempts from retry count `c`, sleeps
`2 ^ j` seconds before the retry after attempt `j`, and surfaces the typed
error matching the final attempt's failure kind. -/
theorem request_from_all_fail (t : Nat → Outcome) (m : Nat)
    (hfail : ∀ k, t k = Outcome.timeout ∨ t k = Outcome.connect_error) :
    ∀ d c, m - c = d → c ≤ m →
      (request_from t m c).attempts = m + 1 - c ∧
      (request_from t m c).delays =
        (List.range' c (m - c)).map (fun j => 2 ^ j) ∧
      (t m = Outcome.timeout →
        (request_from t m c).outcome =
          RequestOutcome.err (.timeoutError "Request timed out")) ∧
      (t m = Outcome.connect_error →
        (request_from t m c).outcome =
          RequestOutcome.err (.connectionError "Connection failed")) := by
  intro d
  induction d with
  | zero =>
      intro c hd hc
      have hcm : c = m := by omega
      have hnc : ¬ c < m := by omega
      rcases hfail c with h | h
      · have hreq : request_from t m c =
            ⟨RequestOutcome.err (.timeoutError "Request timed out"), 1, []⟩ := by
          rw [request_from]
          simp [h, hnc]
        have htm : t m = Outcome.timeout := hcm ▸ h
        refine ⟨?_, ?_, ?_, ?_⟩ <;> rw [hreq]
        · show 1 = m + 1 - c
          omega
        · rw [hd]
          rfl
        · intro _
          rfl
        · intro hcon
          exact absurd (htm.symm.trans hcon) (by simp)
      · have hreq : request_from t m c =
            ⟨RequestOutcome.err (.connectionError "Connection failed"), 1, []⟩ := by
          rw [request_from]
          simp [h, hnc]
        have htm : t m = Outcome.connect_error := hcm ▸ h
        refine ⟨?_, ?_, ?_, ?_⟩ <;> rw [hreq]
        · show 1 = m + 1 - c
          omega
        · rw [hd]
          rfl
        · intro hcon
          exact absurd (htm.symm.trans hcon) (by simp)
        · intro _
          rfl
  | succ d ih =>
      intro c hd hc
      have hlt : c < m := by omega
      obtain ⟨ha, hdel, ht, hcn⟩ := ih (c + 1) (by omega) (by omega)
      have hstep : request_from t m c =
          ⟨(request_from t m (c + 1)).outcome,
            (request_from t m (c + 1)).attempts + 1,
            2 ^ c :: (request_from t m (c + 1)).delays⟩ := by
        rcases hfail c with h | h <;>
          (rw [request_from]; simp [h, hlt])
      refine ⟨?_, ?_, ?_, ?_⟩ <;> rw [hstep]
      · show (request_from t m (c + 1)).attempts + 1 = m + 1 - c
        omega
      · show 2 ^ c :: (request_from t m (c + 1)).delays =
          (List.range' c (m - c)).map (fun j => 2 ^ j)
        have hmc : m - c = (m - (c + 1)) + 1 := by omega
        rw [hdel, hmc, List.range'_succ]
        rfl
      · exact ht
      · exact hcn

/-- Against a transport that fails strictly before attempt `k` and returns
a success response at attempt `k ≤ max_retries`, the request returns that
response after `k + 1 - c` further attempts from retry count `c`, with
backoff delays `2 ^ c, …, 2 ^ (k - 1)`. -/
theorem request_from_succeeds (t : Nat → Outcome) (m k : Nat) (r : Response)
    (hk : t k = Outcome.success r) (hst : r.status_code < 400)
    (hbefore : ∀ j, j < k → t j = Outcome.timeout ∨ t j = Outcome.connect_error)
    (hkm : k ≤ m) :
    ∀ d c, k - c = d → c ≤ k →
      request_from t m c =
        ⟨RequestOutcome.ok r, k + 1 - c,
          (List.range' c (k - c)).map (fun j => 2 ^ j)⟩ := by
  intro d
  induction d with
  | zero =>
      intro c hd hc
      have hck : c = k := by omega
      subst hck
      have hns : ¬ 400 ≤ r.status_code := by omega
      rw [request_from]
      simp [hk, hns, hd]
  | succ d ih =>
      intro c hd hc
      have hlt : c < k := by omega
      have hcm : c < m := by omega
      have hstep : request_from t m c =
          ⟨(request_from t m (c + 1)).outcome,
            (request_from t m (c + 1)).attempts + 1,
            2 ^ c :: (request_from t m (c + 1)).delays⟩ := by
        rcases hbefore c hlt with h | h <;>
          (rw [request_from]; simp [h, hcm])
      rw [hstep, ih (c + 1) (by omega) (by omega)]
      have hmc : k - c = (k - (c + 1)) + 1 := by omega
      rw [hmc, List.range'_succ]
      have hat : (k + 1 - (c + 1)) + 1 = k + 1 - c := by omega
      simp [hat]
      omega

/-- C1: transport failures (timeouts and connection errors) are retried
with a delay of `2 ^ attempt` seconds (attempt starting at 0) until an
attempt succeeds or `max_retries` retries are exhausted, after which the
typed timeout (or connection) error is raised; in particular with
`max_retries = 2`, a transport that times out twice then succeeds yields
the success response after exactly 3 attempts, and a transport that always
times out yields the timeout error after exactly 3 attempts. -/
theorem C1_retry_backoff (m : Nat) (t : Nat → Outcome) (k : Nat) (r : Response) :
    ((∀ j, t j = Outcome.timeout ∨ t j = Outcome.connect_error) →
      (request t m).attempts = m + 1 ∧
      (request t m).delays = (List.range m).map (fun j => 2 ^ j) ∧
      (t m = Outcome.timeout →
        (request t m).outcome =
          RequestOutcome.err (.timeoutError "Request timed out")) ∧
      (t m = Outcome.connect_error →
        (request t m).outcome =
          RequestOutcome.err (.connectionError "Connection failed"))) ∧
    ((∀ j, j < k → t j = Outcome.timeout ∨ t j = Outcome.connect_error) →
      t k = Outcome.success r → r.status_code < 400 → k ≤ m →
      request t m =
        ⟨RequestOutcome.ok r, k + 1, (List.range k).map (fun j => 2 ^ j)⟩) ∧
    request
      (fun j => if j < 2 then Outcome.timeout
                else Outcome.success { status_code := 200 }) 2 =
      ⟨RequestOutcome.ok { status_code := 200 }, 3, [1, 2]⟩ ∧
    request (fun _ => Outcome.timeout) 2 =
      ⟨RequestOutcome.err (.timeoutError "Request timed out"), 3, [1, 2]⟩ := by
  refine ⟨?_, ?_, ?_, ?_⟩
  · intro hfail
    obtain ⟨ha, hdel, ht, hcn⟩ :=
      request_from_all_fail t m hfail m 0 rfl (Nat.zero_le m)
    refine ⟨?_, ?_, ht, hcn⟩
    · show (request_from t m 0).attempts = m + 1
      omega
    · rw [List.range_eq_range']
      exact hdel
  · intro hb hk hst hkm
    have h := request_from_succeeds t m k r hk hst hb hkm k 0 rfl (Nat.zero_le k)
    rw [List.range_eq_range']
    exact h
  · have h := request_from_succeeds
      (fun j => if j < 2 then Outcome.timeout
                else Outcome.success { status_code := 200 }) 2 2
      { status_code := 200 } rfl (by norm_num)
      (fun j hj => Or.inl (if_pos hj)) (le_refl 2) 2 0 rfl (Nat.zero_le 2)
    show request_from
      (fun j => if j < 2 then Outcome.timeout
                else Outcome.success { status_code := 200 }) 2 0 =
      ⟨RequestOutcome.ok { status_code := 200 }, 3, [1, 2]⟩
    rw [h]
    rfl
  · have hfail : ∀ j : Nat,
        (fun _ : Nat => Outcome.timeout) j = Outcome.timeout ∨
        (fun _ : Nat => Outcome.timeout) j = Outcome.connect_error :=
      fun _ => Or.inl rfl
    obtain ⟨ha, hdel, ht, _⟩ :=
      request_from_all_fail (fun _ => Outcome.timeout) 2 hfail 2 0 rfl
        (Nat.zero_le 2)
    have heta : request (fun _ => Outcome.timeout) 2 =
        ⟨(request_from (fun _ => Outcome.timeout) 2 0).outcome,
          (request_from (fun _ => Outcome.timeout) 2 0).attempts,
          (request_from (fun _ => Outcome.timeout) 2 0).delays⟩ := rfl
    rw [heta, ha, hdel, ht rfl]
    rfl

/-- C1 witness: the always-timing-out transport with `max_retries = 2`
makes exactly 3 attempts with delays 1 and 2 seconds. -/
theorem C1_retry_backoff_witness :
    (request (fun _ => Outcome.timeout) 2).attempts = 3 ∧
    (request (fun _ => Outcome.timeout) 2).delays = [1, 2] := by
  have h := (C1_retry_backoff 2 (fun _ => Outcome.timeout) 0
    { status_code := 200 }).1 (fun _ => Or.inl rfl)
  refine ⟨h.1, ?_⟩
  rw [h.2.1]
  rfl

/-! ## C2: status ≥ 400 error mapping -/

/-- A response with status ≥ 400 on the first attempt is handled on that
single attempt with no retry and no backoff: the raised `HermesError` (or
the uncaught native exception) comes straight from
`_handle_error_response`. -/
theorem request_error_first (t : Nat → Outcome) (m : Nat) (r : Response)
    (h0 : t 0 = Outcome.success r) (hst : 400 ≤ r.status_code) :
    request t m =
      ⟨match handle_error_response r with
        | some e => RequestOutcome.err e
        | none => RequestOutcome.crash, 1, []⟩ := by
  unfold request
  rw [request_from]
  rw [h0]
  simp only [hst, if_true]
  cases hh : handle_error_response r <;> simp [hh]

/-- C2: the 404 and 429 mappings are broken in the code — both
`HermesNotFoundError` and `HermesRateLimitError` are constructed with a
`status_code` keyword that collides with the `status_code=404`/`429` their
own `__init__`s forward, so Python raises `TypeError` instead of the typed
error (contradicting the library's docstrings and its own tests): a 404
response with body `{"error": "Resource not found"}` crashes the handler,
a 429 response with `Retry-After: 60` crashes the handler, a document
fetch hitting that 404 surfaces the crash on a single attempt, and the
same rate-limit construction succeeds when no `status_code` keyword is
passed — showing the collision is the only obstacle. -/
theorem C2_status_mapping_bug :
    handle_error_response
      { status_code := 404, text := "Not found",
        jsonBody := some { errorField := some "Resource not found" } } =
      none ∧
    handle_error_response
      { status_code := 429, text := "Rate limit exceeded",
        jsonBody := some { errorField := some "Too many requests" },
        retry_after_header := some "60" } = none ∧
    request
      (fun _ => Outcome.success
        { status_code := 404, text := "Not found",
          jsonBody := some { errorField := some "Resource not found" } }) 3 =
      ⟨RequestOutcome.crash, 1, []⟩ ∧
    mkHermesRateLimitError "Too many requests" (some 60) none
        (some "Too many requests") =
      some (.rateLimitError "Too many requests" (some 60) (some 429)
        (some "Too many requests")) := by
  refine ⟨rfl, by decide, ?_, rfl⟩
  rw [request_error_first
    (fun _ => Outcome.success
      { status_code := 404, text := "Not found",
        jsonBody := some { errorField := some "Resource not found" } }) 3
    { status_code := 404, text := "Not found",
      jsonBody := some { errorField := some "Resource not found" } }
    rfl (by norm_num)]
  rfl

/-! ## C8: template/parse round trip -/

/-- C8: generating a document template with `doc_type="RFC"`,
`title="My New RFC"`, `product="vault"` and parsing the resulting Markdown
back yields a parsed document whose title, doc type, and product equal the
original inputs. -/
theorem C8_template_roundtrip :
    (parse_string ["title"]
      (create_document_template "RFC" "My New RFC" (some "vault") none
        none)).map (fun d => (d.title, d.doc_type, d.product)) =
    Except.ok ("My New RFC", some "RFC", some "vault") := by
  rfl

/-- C4 witness: a retry count of 11 is rejected at a concrete input. -/
theorem C4_config_validation_witness :
    mkHermesConfig "http://localhost:8000" 30 11 "v2" "INFO" = none :=
  (C4_config_validation "http://localhost:8000" 30 11 "v2" "INFO").mpr
    (Or.inr (Or.inr (Or.inl (by norm_num))))

/-- C6 witness: a patch call supplying only a title serializes exactly the
title field. -/
theorem C6_patch_serialization_witness :
    (updateBody { title := some (some "New") }).map Prod.fst = ["title"] := by
  show (modelDumpExcludeNone
    (patchOfKwargs { title := some (some "New") })).map Prod.fst = ["title"]
  rw [C6_patch_serialization.2]
  rfl
